import Mathlib

/-!
Verification of the fiscal-compliance core of the DePollosPos point-of-sale
backend: the Colombian NIT check-digit validator, the invoice totals
calculator, the CUFE (fiscal fingerprint) generator, the QR payload builder,
the invoice-number sequence allocator and the double-entry ledger-posting
helpers.  Every definition is a shallow embedding of the corresponding
Python function; monetary values are modelled as rationals and Python's
`round` builtin as round-half-to-even.
-/

/-! ## Python rounding primitives -/

/-- Python's builtin `round(x)`: round to the nearest integer, ties to the
even integer (banker's rounding). -/
def pyRound (x : ℚ) : ℤ :=
  let f := ⌊x⌋
  let r := x - f
  if r < 1/2 then f
  else if 1/2 < r then f + 1
  else if f % 2 = 0 then f else f + 1

/-- Python's `round(x, 2)`: round to two fractional digits, ties to even. -/
def round2 (x : ℚ) : ℚ := (pyRound (x * 100) : ℚ) / 100

theorem pyRound_intCast (n : ℤ) : pyRound (n : ℚ) = n := by
  simp [pyRound]

theorem round2_div_100 (n : ℤ) : round2 ((n : ℚ) / 100) = (n : ℚ) / 100 := by
  have h : ((n : ℚ) / 100) * 100 = (n : ℚ) := by ring
  rw [round2, h, pyRound_intCast]

theorem round2_round2 (x : ℚ) : round2 (round2 x) = round2 x :=
  round2_div_100 (pyRound (x * 100))

theorem round2_int_mul_50 (k : ℤ) : round2 ((k : ℚ) * 50) = (k : ℚ) * 50 := by
  have h : (k : ℚ) * 50 = ((k * 5000 : ℤ) : ℚ) / 100 := by push_cast; ring
  rw [h, round2_div_100]

theorem abs_pyRound_sub (q : ℚ) : |(pyRound q : ℚ) - q| ≤ 1/2 := by
  have hf : (⌊q⌋ : ℚ) ≤ q := Int.floor_le q
  have hf2 : q < ⌊q⌋ + 1 := Int.lt_floor_add_one q
  simp only [pyRound]
  split_ifs with h1 h2 h3 <;> rw [abs_le] <;>
    constructor <;> push_cast <;> linarith

theorem abs_round2_sub (x : ℚ) : |round2 x - x| ≤ 1/200 := by
  have h := abs_pyRound_sub (x * 100)
  rw [round2]
  have hrw : (pyRound (x * 100) : ℚ) / 100 - x = ((pyRound (x * 100) : ℚ) - x * 100) / 100 := by
    ring
  rw [hrw, abs_div]
  have h100 : |(100 : ℚ)| = 100 := by norm_num
  rw [h100]
  linarith

/-! ## IdentityChecksumValidator: `validar_nit`
(src/facturacion_electronica_utils.py, lines 250-288) -/

/-- The stripped identifier: `str(nit).replace('.','').replace('-','').replace(' ','')`. -/
def stripNit (s : String) : List Char :=
  s.data.filter (fun c => c ≠ '.' ∧ c ≠ '-' ∧ c ≠ ' ')

/-- Weight table used for the check digit. -/
def pesos : List ℕ := [71, 67, 59, 53, 47, 43, 41, 37, 29, 23, 19, 17, 13, 7, 3]

/-- `int(digito)` for an ASCII digit character. -/
def charDigit (c : Char) : ℕ := c.toNat - 48

/-- The accumulation loop `for i, digito in enumerate(nit_reverso): if i < len(pesos): suma += int(digito) * pesos[i]`. -/
def sumaNit : ℕ → List Char → ℕ
  | _, [] => 0
  | i, d :: rest =>
      (if i < pesos.length then charDigit d * pesos.getD i 0 else 0) + sumaNit (i + 1) rest

/-- `validar_nit(nit, digito_verificacion)`.  A stripped identifier containing a
non-digit character makes `int(digito)` raise, and the surrounding handler
returns `(False, None)`. -/
def validar_nit (nit : String) (digito_verificacion : Option String) : Bool × Option String :=
  let cs := stripNit nit
  if cs.all Char.isDigit then
    let suma := sumaNit 0 cs.reverse
    let residuo := suma % 11
    let dv := if residuo = 0 ∨ residuo = 1 then residuo else 11 - residuo
    match digito_verificacion with
    | some d => (toString dv == d, some (toString dv))
    | none => (true, some (toString dv))
  else
    (false, none)

theorem sumaNit_eq_zipWith (l : List Char) :
    ∀ i, sumaNit i l = (List.zipWith (fun d w => charDigit d * w) l (pesos.drop i)).sum := by
  induction l with
  | nil => intro i; simp [sumaNit]
  | cons d rest ih =>
      intro i
      by_cases hi : i < pesos.length
      · rw [List.drop_eq_getElem_cons hi]
        simp only [List.zipWith_cons_cons, List.sum_cons, sumaNit, if_pos hi, ih (i + 1)]
        congr 2
        exact List.getD_eq_getElem pesos 0 hi
      · have hd : pesos.drop i = [] := List.drop_eq_nil_of_le (Nat.le_of_not_lt hi)
        have hd2 : pesos.drop (i + 1) = [] :=
          List.drop_eq_nil_of_le (Nat.le_succ_of_le (Nat.le_of_not_lt hi))
        simp [sumaNit, hi, ih (i + 1), hd, hd2]

/-- Claim C6 (amended): for every identifier whose stripped form is all digits,
the check digit computed by `validar_nit` is the weighted sum of the reversed
digit string against the table `[71,...,3]` (positions beyond the table
contribute nothing), reduced mod 11, with remainders 0 and 1 kept and every
other remainder replaced by its complement to 11; in particular `900123456`
yields check digit `8`. -/
theorem c6_nit_algorithm (s : String)
    (h : (stripNit s).all Char.isDigit = true) :
    validar_nit s none = (true, some (toString (
      let suma := (List.zipWith (fun d w => charDigit d * w) (stripNit s).reverse
        [71, 67, 59, 53, 47, 43, 41, 37, 29, 23, 19, 17, 13, 7, 3]).sum
      let residuo := suma % 11
      if residuo = 0 ∨ residuo = 1 then residuo else 11 - residuo)))
    ∧ validar_nit "900123456" none = (true, some "8") := by
  refine ⟨?_, by decide⟩
  have hz := sumaNit_eq_zipWith (stripNit s).reverse 0
  simp only [List.drop_zero] at hz
  simp only [validar_nit, h, if_pos]
  rw [hz]
  rfl

/-- Claim C6, counterexample to the claim as stated: the code computes check
digit `8` for `900123456`, not `7`, and validating `900123456` against `7`
fails. -/
theorem c6_counterexample :
    validar_nit "900123456" none = (true, some "8") ∧
    (validar_nit "900123456" (some "7")).fst = false := by decide

/-- Witness for `c6_nit_algorithm` at the concrete identifier `900123456`. -/
theorem c6_nit_algorithm_witness :
    (stripNit "900123456").all Char.isDigit = true ∧
    (validar_nit "900123456" none = (true, some (toString (
      let suma := (List.zipWith (fun d w => charDigit d * w) (stripNit "900123456").reverse
        [71, 67, 59, 53, 47, 43, 41, 37, 29, 23, 19, 17, 13, 7, 3]).sum
      let residuo := suma % 11
      if residuo = 0 ∨ residuo = 1 then residuo else 11 - residuo)))
    ∧ validar_nit "900123456" none = (true, some "8")) :=
  ⟨by decide, c6_nit_algorithm "900123456" (by decide)⟩

/-- Claim C7: for every identifier whose stripped form is all numeric,
validating the identifier against its own computed check digit succeeds. -/
theorem c7_nit_roundtrip (s : String)
    (h : (stripNit s).all Char.isDigit = true) :
    (validar_nit s (validar_nit s none).snd).fst = true := by
  simp [validar_nit, h]

/-- Witness for `c7_nit_roundtrip` at the concrete identifier `900123456`. -/
theorem c7_nit_roundtrip_witness :
    (stripNit "900123456").all Char.isDigit = true ∧
    (validar_nit "900123456" (validar_nit "900123456" none).snd).fst = true :=
  ⟨by decide, c7_nit_roundtrip "900123456" (by decide)⟩

/-- Claim C10: an identifier that is empty (or becomes empty after stripping
`.`, `-` and spaces), with no supplied check digit, is accepted as valid with
computed check digit `"0"`. -/
theorem c10_empty_nit (s : String) (h : stripNit s = []) :
    validar_nit s none = (true, some "0") := by
  simp only [validar_nit, h, sumaNit]
  decide

/-- Witness for `c10_empty_nit` at the concrete identifier `".- "`. -/
theorem c10_empty_nit_witness :
    stripNit ".- " = [] ∧ validar_nit ".- " none = (true, some "0") :=
  ⟨by decide, c10_empty_nit ".- " (by decide)⟩

/-! ## InvoiceTotalsCalculator: `calcular_totales_factura`
(src/facturacion_electronica_utils.py, lines 325-419) -/

/-- One invoice line; field defaults mirror the `linea.get(...)` defaults. -/
structure Linea where
  cantidad : ℚ := 0
  precio : ℚ := 0
  descuento : ℚ := 0
  cargo : ℚ := 0
  impuesto_porcentaje : ℚ := 0
  impuesto_tipo : String := "01"
  retencion_porcentaje : ℚ := 0
  retencion_tipo : String := "06"
deriving DecidableEq

/-- The totals dictionary initialised at the top of `calcular_totales_factura`. -/
structure Totales where
  subtotal : ℚ := 0
  total_descuentos : ℚ := 0
  total_cargos : ℚ := 0
  base_imponible : ℚ := 0
  total_iva : ℚ := 0
  total_inc : ℚ := 0
  total_impuestos : ℚ := 0
  total_retenciones : ℚ := 0
  total_retefuente : ℚ := 0
  total_reteiva : ℚ := 0
  total_reteica : ℚ := 0
  redondeo : ℚ := 0
  total : ℚ := 0
deriving DecidableEq

/-- The body of the `for linea in lineas` loop. -/
def procesarLinea (t : Totales) (l : Linea) : Totales :=
  let subtotal_linea := l.cantidad * l.precio
  let base_linea := subtotal_linea - l.descuento + l.cargo
  let t := { t with
    subtotal := t.subtotal + subtotal_linea
    total_descuentos := t.total_descuentos + l.descuento
    total_cargos := t.total_cargos + l.cargo
    base_imponible := t.base_imponible + base_linea }
  let t :=
    if 0 < l.impuesto_porcentaje then
      let impuesto_valor := base_linea * (l.impuesto_porcentaje / 100)
      let t :=
        if l.impuesto_tipo = "01" then { t with total_iva := t.total_iva + impuesto_valor }
        else if l.impuesto_tipo = "04" then { t with total_inc := t.total_inc + impuesto_valor }
        else t
      { t with total_impuestos := t.total_impuestos + impuesto_valor }
    else t
  if 0 < l.retencion_porcentaje then
    let retencion_valor := base_linea * (l.retencion_porcentaje / 100)
    let t :=
      if l.retencion_tipo = "06" then { t with total_retefuente := t.total_retefuente + retencion_valor }
      else if l.retencion_tipo = "05" then { t with total_reteiva := t.total_reteiva + retencion_valor }
      else if l.retencion_tipo = "07" then { t with total_reteica := t.total_reteica + retencion_valor }
      else t
    { t with total_retenciones := t.total_retenciones + retencion_valor }
  else t

/-- The pre-rounding grand total `total_antes_redondeo = base + impuestos - retenciones`. -/
def totalAntesRedondeo (lineas : List Linea) : ℚ :=
  let t := lineas.foldl procesarLinea {}
  t.base_imponible + t.total_impuestos - t.total_retenciones

/-- `calcular_totales_factura` just before the final
`for key in totales: totales[key] = round(totales[key], 2)` loop. -/
def calcularTotalesPre (lineas : List Linea) (redondeo : Bool) : Totales :=
  let t := lineas.foldl procesarLinea {}
  let total_antes_redondeo := t.base_imponible + t.total_impuestos - t.total_retenciones
  if redondeo then
    let total_redondeado : ℚ := (pyRound (total_antes_redondeo / 50) : ℚ) * 50
    { t with
      redondeo := total_redondeado - total_antes_redondeo
      total := total_redondeado }
  else
    { t with total := round2 total_antes_redondeo }

/-- Round every stored field to 2 fractional digits. -/
def round2Totales (t : Totales) : Totales :=
  ⟨round2 t.subtotal, round2 t.total_descuentos, round2 t.total_cargos,
   round2 t.base_imponible, round2 t.total_iva, round2 t.total_inc,
   round2 t.total_impuestos, round2 t.total_retenciones, round2 t.total_retefuente,
   round2 t.total_reteiva, round2 t.total_reteica, round2 t.redondeo, round2 t.total⟩

/-- `calcular_totales_factura(lineas, redondeo)`. -/
def calcular_totales_factura (lineas : List Linea) (redondeo : Bool) : Totales :=
  round2Totales (calcularTotalesPre lineas redondeo)

theorem procesarLinea_redondeo (t : Totales) (l : Linea) :
    (procesarLinea t l).redondeo = t.redondeo := by
  simp only [procesarLinea]
  split_ifs <;> rfl

theorem foldl_procesarLinea_redondeo (lineas : List Linea) :
    ∀ t : Totales, (lineas.foldl procesarLinea t).redondeo = t.redondeo := by
  induction lineas with
  | nil => intro t; rfl
  | cons l rest ih => intro t; rw [List.foldl_cons, ih, procesarLinea_redondeo]

/-- Claim C1: for every list of lines and either rounding mode, the stored
grand total equals the 2-digit rounding of
`base_imponible + total_impuestos - total_retenciones + redondeo` taken over
the pre-rounding values, and over the stored (individually rounded) fields the
same identity holds up to the accumulated field-rounding error. -/
theorem c1_total_invariant (lineas : List Linea) (redondeo : Bool) :
    (calcular_totales_factura lineas redondeo).total =
      round2 ((calcularTotalesPre lineas redondeo).base_imponible
        + (calcularTotalesPre lineas redondeo).total_impuestos
        - (calcularTotalesPre lineas redondeo).total_retenciones
        + (calcularTotalesPre lineas redondeo).redondeo)
    ∧ |(calcular_totales_factura lineas redondeo).total -
        ((calcular_totales_factura lineas redondeo).base_imponible
         + (calcular_totales_factura lineas redondeo).total_impuestos
         - (calcular_totales_factura lineas redondeo).total_retenciones
         + (calcular_totales_factura lineas redondeo).redondeo)| ≤ 1/40 := by
  have key : (calcular_totales_factura lineas redondeo).total =
      round2 ((calcularTotalesPre lineas redondeo).base_imponible
        + (calcularTotalesPre lineas redondeo).total_impuestos
        - (calcularTotalesPre lineas redondeo).total_retenciones
        + (calcularTotalesPre lineas redondeo).redondeo) := by
    cases redondeo with
    | true =>
        simp only [calcular_totales_factura, calcularTotalesPre, round2Totales, if_true]
        exact congrArg round2 (by ring)
    | false =>
        simp only [calcular_totales_factura, calcularTotalesPre, round2Totales,
          Bool.false_eq_true, if_false, foldl_procesarLinea_redondeo]
        show round2 (round2 _) = round2 (_ + _ - _ + (Totales.redondeo {}))
        rw [round2_round2]
        exact congrArg round2 (by simp)
  refine ⟨key, ?_⟩
  have hb := abs_round2_sub (calcularTotalesPre lineas redondeo).base_imponible
  have hi := abs_round2_sub (calcularTotalesPre lineas redondeo).total_impuestos
  have hr := abs_round2_sub (calcularTotalesPre lineas redondeo).total_retenciones
  have hd := abs_round2_sub (calcularTotalesPre lineas redondeo).redondeo
  have hs := abs_round2_sub ((calcularTotalesPre lineas redondeo).base_imponible
        + (calcularTotalesPre lineas redondeo).total_impuestos
        - (calcularTotalesPre lineas redondeo).total_retenciones
        + (calcularTotalesPre lineas redondeo).redondeo)
  rw [abs_le] at hb hi hr hd hs
  rw [key]
  have hfields : (calcular_totales_factura lineas redondeo).base_imponible
        = round2 (calcularTotalesPre lineas redondeo).base_imponible
      ∧ (calcular_totales_factura lineas redondeo).total_impuestos
        = round2 (calcularTotalesPre lineas redondeo).total_impuestos
      ∧ (calcular_totales_factura lineas redondeo).total_retenciones
        = round2 (calcularTotalesPre lineas redondeo).total_retenciones
      ∧ (calcular_totales_factura lineas redondeo).redondeo
        = round2 (calcularTotalesPre lineas redondeo).redondeo :=
    ⟨rfl, rfl, rfl, rfl⟩
  rw [hfields.1, hfields.2.1, hfields.2.2.1, hfields.2.2.2, abs_le]
  constructor <;> linarith

/-- The rounding rule claimed by the spec, stated from its words: round to the
nearest multiple of 50 with ties away from zero (conventional commercial
rounding).  Used only to compare against what the code does. -/
def specRound50AwayFromZero (x : ℚ) : ℚ :=
  (if 0 ≤ x then ⌊x / 50 + 1/2⌋ else -⌊-(x / 50) + 1/2⌋ : ℤ) * 50

/-- Claim C4, counterexample to the claim as stated: on a single line of
quantity 1 and price 25 the pre-rounding total is 25, exactly halfway between
0 and 50; ties-away-from-zero rounding would give 50, but the code (Python's
banker-rounding `round`) returns total 0 with adjustment −25. -/
theorem c4_counterexample :
    totalAntesRedondeo [{ cantidad := 1, precio := 25 }] = 25 ∧
    (calcular_totales_factura [{ cantidad := 1, precio := 25 }] true).total = 0 ∧
    (calcular_totales_factura [{ cantidad := 1, precio := 25 }] true).redondeo = -25 ∧
    specRound50AwayFromZero 25 = 50 := by
  norm_num [totalAntesRedondeo, calcular_totales_factura, calcularTotalesPre,
    round2Totales, procesarLinea, round2, pyRound, specRound50AwayFromZero]

/-- Claim C4 (amended): with rounding enabled the stored total is the
pre-rounding total rounded to the nearest multiple of 50 with ties resolved by
Python's round-half-to-even (banker's rounding on the quotient, not
ties-away-from-zero), the stored `redondeo` is the 2-digit rounding of
`rounded − pre_rounding_total`, and the rounded total is never more than 25
currency units away from the pre-rounding total. -/
theorem c4_redondeo_amended (lineas : List Linea) :
    (calcular_totales_factura lineas true).total
        = (pyRound (totalAntesRedondeo lineas / 50) : ℚ) * 50
    ∧ (calcular_totales_factura lineas true).redondeo
        = round2 ((pyRound (totalAntesRedondeo lineas / 50) : ℚ) * 50
            - totalAntesRedondeo lineas)
    ∧ |(calcular_totales_factura lineas true).total - totalAntesRedondeo lineas| ≤ 25 := by
  have h1 : (calcular_totales_factura lineas true).total
      = round2 ((pyRound (totalAntesRedondeo lineas / 50) : ℚ) * 50) := rfl
  have h2 : (calcular_totales_factura lineas true).redondeo
      = round2 ((pyRound (totalAntesRedondeo lineas / 50) : ℚ) * 50
          - totalAntesRedondeo lineas) := rfl
  refine ⟨by rw [h1, round2_int_mul_50], h2, ?_⟩
  rw [h1, round2_int_mul_50]
  have h := abs_pyRound_sub (totalAntesRedondeo lineas / 50)
  rw [abs_le] at h ⊢
  have hx : (pyRound (totalAntesRedondeo lineas / 50) : ℚ) * 50 - totalAntesRedondeo lineas
      = ((pyRound (totalAntesRedondeo lineas / 50) : ℚ) - totalAntesRedondeo lineas / 50) * 50 := by
    ring
  constructor <;> rw [hx] <;> nlinarith [h.1, h.2]

/-- The two invoice lines of the end-to-end scenario of claim C8. -/
def c8lineas : List Linea :=
  [{ cantidad := 2, precio := 50000, impuesto_porcentaje := 19, impuesto_tipo := "01" },
   { cantidad := 1, precio := 30000, descuento := 3000, impuesto_porcentaje := 19,
     impuesto_tipo := "01" }]

/-- Claim C8: the two-line scenario (qty 2 at 50000 with 19% tax; qty 1 at
30000 with discount 3000 and 19% tax), with rounding to the nearest 50,
yields subtotal 130000, base 127000, IVA bucket 24130, pre-rounding total
151130, grand total 151150 and rounding adjustment 20. -/
theorem c8_scenario :
    (calcular_totales_factura c8lineas true).subtotal = 130000 ∧
    (calcular_totales_factura c8lineas true).base_imponible = 127000 ∧
    (calcular_totales_factura c8lineas true).total_iva = 24130 ∧
    totalAntesRedondeo c8lineas = 151130 ∧
    (calcular_totales_factura c8lineas true).total = 151150 ∧
    (calcular_totales_factura c8lineas true).redondeo = 20 := by
  norm_num [c8lineas, totalAntesRedondeo, calcular_totales_factura, calcularTotalesPre,
    round2Totales, procesarLinea, round2, pyRound]

/-! ## SequenceAllocator: `obtener_siguiente_numero_factura`
(src/facturacion_electronica_integracion.py, lines 264-298) -/

/-- The tuple `(numero, prefijo, es_valido, mensaje)` returned by
`obtener_siguiente_numero_factura`. -/
structure ResultadoNumero where
  numero : ℤ
  prefijo : String
  es_valido : Bool
  mensaje : String
deriving DecidableEq

/-- `obtener_siguiente_numero_factura`, given the resolved last issued number
for the prefix (`0` when no invoice exists yet) and the configured DIAN range. -/
def obtener_siguiente_numero_factura (ultimo_numero : ℤ) (prefijo : String)
    (rango_desde rango_hasta : ℤ) : ResultadoNumero :=
  let siguiente := ultimo_numero + 1
  if siguiente < rango_desde then
    ⟨rango_desde, prefijo, true, "OK"⟩
  else if rango_hasta < siguiente then
    ⟨siguiente, prefijo, false,
      "Se agotó el rango autorizado (hasta " ++ toString rango_hasta ++ ")"⟩
  else
    ⟨siguiente, prefijo, true, "OK"⟩

/-- Claim C5: a successful allocation never lies below the configured low
bound nor above the high bound, and when the last issued number is already at
or beyond the high bound the allocation fails with the range-exhausted
message instead of wrapping. -/
theorem c5_rango_numeracion (u v rango_desde rango_hasta : ℤ) (p q : String)
    (hrange : rango_desde ≤ rango_hasta)
    (hok : (obtener_siguiente_numero_factura u p rango_desde rango_hasta).es_valido = true)
    (hv : rango_hasta ≤ v) :
    (rango_desde ≤ (obtener_siguiente_numero_factura u p rango_desde rango_hasta).numero
      ∧ (obtener_siguiente_numero_factura u p rango_desde rango_hasta).numero ≤ rango_hasta)
    ∧ (obtener_siguiente_numero_factura v q rango_desde rango_hasta).es_valido = false
    ∧ (obtener_siguiente_numero_factura v q rango_desde rango_hasta).mensaje
        = "Se agotó el rango autorizado (hasta " ++ toString rango_hasta ++ ")" := by
  simp only [obtener_siguiente_numero_factura] at hok ⊢
  have hv1 : ¬ (v + 1 < rango_desde) := by omega
  have hv2 : rango_hasta < v + 1 := by omega
  rw [if_neg hv1, if_pos hv2]
  split_ifs at hok ⊢ with h1 h2
  · exact ⟨⟨le_refl _, hrange⟩, rfl, rfl⟩
  · exact ⟨⟨by show rango_desde ≤ u + 1; omega, by show u + 1 ≤ rango_hasta; omega⟩, rfl, rfl⟩

/-- Witness for `c5_rango_numeracion`: last number 10 in range [1, 100]
allocates 11; last number 5000 exhausts the range. -/
theorem c5_rango_numeracion_witness :
    ((1 : ℤ) ≤ 100
      ∧ (obtener_siguiente_numero_factura 10 "SETT" 1 100).es_valido = true
      ∧ (100 : ℤ) ≤ 5000)
    ∧ (((1 : ℤ) ≤ (obtener_siguiente_numero_factura 10 "SETT" 1 100).numero
        ∧ (obtener_siguiente_numero_factura 10 "SETT" 1 100).numero ≤ 100)
      ∧ (obtener_siguiente_numero_factura 5000 "SETT" 1 100).es_valido = false
      ∧ (obtener_siguiente_numero_factura 5000 "SETT" 1 100).mensaje
          = "Se agotó el rango autorizado (hasta " ++ toString (100 : ℤ) ++ ")") :=
  ⟨⟨by norm_num, by rfl, by norm_num⟩,
    c5_rango_numeracion 10 5000 1 100 "SETT" "SETT" (by norm_num) (by rfl) (by norm_num)⟩

/-! ## LedgerPostingEngine: `crear_asiento_*` helpers
(src/app.py, lines 105-341).  Each helper is modelled as a pure function from
the rows its queries fetch (the transaction row and the resolved `puc`
account ids, `none` when the lookup returns no row) to the list of
`movimientos_contables` rows it inserts. -/

/-- One inserted `movimientos_contables` row. -/
structure Movimiento where
  fecha : String
  cuenta_id : ℕ
  descripcion : String
  debito : ℚ
  credito : ℚ
  modulo : String
  referencia_id : ℕ
deriving DecidableEq

/-- Row fetched from `facturas`. -/
structure FacturaRow where
  numero : ℕ
  fecha : String
  total : ℚ
deriving DecidableEq

/-- Row fetched from `compras`. -/
structure CompraRow where
  numero : ℕ
  fecha : String
  total : ℚ
  forma_pago : String
deriving DecidableEq

/-- Row fetched from `recibos_caja`. -/
structure ReciboRow where
  numero : ℕ
  fecha : String
  valor : ℚ
  concepto : Option String
deriving DecidableEq

/-- Row fetched from `comprobantes_egreso`. -/
structure EgresoRow where
  numero : ℕ
  fecha : String
  valor : ℚ
  concepto : Option String
deriving DecidableEq

/-- Row fetched from `notas_credito`. -/
structure NotaRow where
  numero : ℕ
  fecha : String
  total : ℚ
deriving DecidableEq

/-- `crear_asiento_venta`: debit cash (puc 1105), credit sales (puc 4135). -/
def crear_asiento_venta (factura : Option FacturaRow) (caja ventas : Option ℕ)
    (factura_id : ℕ) : List Movimiento :=
  match factura with
  | none => []
  | some f =>
    let descripcion := "Venta factura #" ++ toString f.numero
    match caja, ventas with
    | some c, some v =>
        [⟨f.fecha, c, descripcion, f.total, 0, "ventas", factura_id⟩,
         ⟨f.fecha, v, descripcion, 0, f.total, "ventas", factura_id⟩]
    | _, _ => []

/-- `crear_asiento_compra`: debit inventory (puc 1435), credit cash (1105) for
`contado` or payables (2205) otherwise. -/
def crear_asiento_compra (compra : Option CompraRow)
    (inventario pagoContado pagoCredito : Option ℕ) (compra_id : ℕ) : List Movimiento :=
  match compra with
  | none => []
  | some cp =>
    let descripcion := "Compra #" ++ toString cp.numero
    let pago := if cp.forma_pago = "contado" then pagoContado else pagoCredito
    match inventario, pago with
    | some inv, some pg =>
        [⟨cp.fecha, inv, descripcion, cp.total, 0, "compras", compra_id⟩,
         ⟨cp.fecha, pg, descripcion, 0, cp.total, "compras", compra_id⟩]
    | _, _ => []

/-- `crear_asiento_recibo`: debit cash (1105), credit other income (4199). -/
def crear_asiento_recibo (recibo : Option ReciboRow) (caja ingreso : Option ℕ)
    (recibo_id : ℕ) : List Movimiento :=
  match recibo with
  | none => []
  | some r =>
    let descripcion := "Recibo de Caja #" ++ toString r.numero ++ " - " ++ r.concepto.getD ""
    match caja, ingreso with
    | some c, some ing =>
        [⟨r.fecha, c, descripcion, r.valor, 0, "recibo_caja", recibo_id⟩,
         ⟨r.fecha, ing, descripcion, 0, r.valor, "recibo_caja", recibo_id⟩]
    | _, _ => []

/-- `crear_asiento_egreso`: debit expense (5195), credit cash (1105). -/
def crear_asiento_egreso (egreso : Option EgresoRow) (caja gasto : Option ℕ)
    (egreso_id : ℕ) : List Movimiento :=
  match egreso with
  | none => []
  | some e =>
    let descripcion := "Comprobante Egreso #" ++ toString e.numero ++ " - " ++ e.concepto.getD ""
    match caja, gasto with
    | some c, some g =>
        [⟨e.fecha, g, descripcion, e.valor, 0, "egreso", egreso_id⟩,
         ⟨e.fecha, c, descripcion, 0, e.valor, "egreso", egreso_id⟩]
    | _, _ => []

/-- `crear_asiento_nota_credito`: debit sales (4135), credit returns (4175). -/
def crear_asiento_nota_credito (nota : Option NotaRow) (ventas devoluciones : Option ℕ)
    (nota_id : ℕ) : List Movimiento :=
  match nota with
  | none => []
  | some n =>
    let descripcion := "Nota Crédito #" ++ toString n.numero
    match ventas, devoluciones with
    | some v, some d =>
        [⟨n.fecha, v, descripcion, n.total, 0, "notas_credito", nota_id⟩,
         ⟨n.fecha, d, descripcion, 0, n.total, "notas_credito", nota_id⟩]
    | _, _ => []

/-- The balanced double-entry shape claimed for every posted transaction:
exactly two rows for the reference id, the first with non-zero debit and zero
credit, the second with zero debit and an equal non-zero credit, so total
debits equal total credits. -/
def dosAsientosBalanceados (l : List Movimiento) (rid : ℕ) : Prop :=
  match l with
  | [e1, e2] =>
      e1.debito ≠ 0 ∧ e1.credito = 0 ∧ e2.debito = 0 ∧ e2.credito = e1.debito ∧
      e1.referencia_id = rid ∧ e2.referencia_id = rid ∧
      e1.debito + e2.debito = e1.credito + e2.credito
  | _ => False


/-- Claim C2 (amended): for every transaction row with a non-zero amount, each
of the five ledger-posting helpers produces exactly two balanced entries tied
to the transaction's reference id (debit row first, matching credit row
second), and produces no entries at all when either backing account lookup
fails to resolve. -/
theorem c2_asientos_balanceados
    (f : FacturaRow) (cp : CompraRow) (rc : ReciboRow) (eg : EgresoRow) (nc : NotaRow)
    (a1 a2 a3 a4 a5 a6 a7 a8 a9 a10 : ℕ) (i1 i2 i3 i4 i5 : ℕ)
    (hf : f.total ≠ 0) (hcp : cp.total ≠ 0) (hrc : rc.valor ≠ 0)
    (heg : eg.valor ≠ 0) (hnc : nc.total ≠ 0) :
    (dosAsientosBalanceados (crear_asiento_venta (some f) (some a1) (some a2) i1) i1
      ∧ crear_asiento_venta (some f) none (some a2) i1 = []
      ∧ crear_asiento_venta (some f) (some a1) none i1 = [])
    ∧ (dosAsientosBalanceados
        (crear_asiento_compra (some cp) (some a3) (some a4) (some a5) i2) i2
      ∧ crear_asiento_compra (some cp) none (some a4) (some a5) i2 = []
      ∧ crear_asiento_compra (some cp) (some a3) none none i2 = [])
    ∧ (dosAsientosBalanceados (crear_asiento_recibo (some rc) (some a6) (some a7) i3) i3
      ∧ crear_asiento_recibo (some rc) none (some a7) i3 = []
      ∧ crear_asiento_recibo (some rc) (some a6) none i3 = [])
    ∧ (dosAsientosBalanceados (crear_asiento_egreso (some eg) (some a8) (some a9) i4) i4
      ∧ crear_asiento_egreso (some eg) none (some a9) i4 = []
      ∧ crear_asiento_egreso (some eg) (some a8) none i4 = [])
    ∧ (dosAsientosBalanceados
        (crear_asiento_nota_credito (some nc) (some a10) (some a1) i5) i5
      ∧ crear_asiento_nota_credito (some nc) none (some a1) i5 = []
      ∧ crear_asiento_nota_credito (some nc) (some a10) none i5 = []) := by
  refine ⟨⟨?_, ?_, ?_⟩, ⟨?_, ?_, ?_⟩, ⟨?_, ?_, ?_⟩, ⟨?_, ?_, ?_⟩, ⟨?_, ?_, ?_⟩⟩
  · exact ⟨hf, rfl, rfl, rfl, rfl, rfl, by ring⟩
  · rfl
  · rfl
  · by_cases hfp : cp.forma_pago = "contado" <;>
      simp [crear_asiento_compra, dosAsientosBalanceados, hfp, hcp]
  · rfl
  · by_cases hfp : cp.forma_pago = "contado" <;>
      simp [crear_asiento_compra, hfp]
  · exact ⟨hrc, rfl, rfl, rfl, rfl, rfl, by ring⟩
  · rfl
  · rfl
  · exact ⟨heg, rfl, rfl, rfl, rfl, rfl, by ring⟩
  · rfl
  · rfl
  · exact ⟨hnc, rfl, rfl, rfl, rfl, rfl, by ring⟩
  · rfl
  · rfl

/-- Claim C2, counterexample to the claim as stated: a sale whose `total` is 0
is still posted (both account lookups succeed, two rows are inserted and
committed), yet neither row carries a non-zero debit, so the claimed
balanced-pair shape fails. -/
theorem c2_counterexample :
    (crear_asiento_venta (some ⟨7, "2024-01-01", 0⟩) (some 1) (some 2) 9).length = 2
    ∧ ¬ dosAsientosBalanceados
        (crear_asiento_venta (some ⟨7, "2024-01-01", 0⟩) (some 1) (some 2) 9) 9 := by
  constructor
  · rfl
  · intro h
    exact h.1 rfl

/-- Witness for `c2_asientos_balanceados` at concrete rows with amount 100. -/
theorem c2_asientos_balanceados_witness :
    ((100 : ℚ) ≠ 0) ∧
    ((dosAsientosBalanceados
        (crear_asiento_venta (some ⟨1, "2024-01-02", 100⟩) (some 11) (some 12) 21) 21
      ∧ crear_asiento_venta (some ⟨1, "2024-01-02", 100⟩) none (some 12) 21 = []
      ∧ crear_asiento_venta (some ⟨1, "2024-01-02", 100⟩) (some 11) none 21 = [])
    ∧ (dosAsientosBalanceados
        (crear_asiento_compra (some ⟨2, "2024-01-03", 100, "contado"⟩)
          (some 13) (some 14) (some 15) 22) 22
      ∧ crear_asiento_compra (some ⟨2, "2024-01-03", 100, "contado"⟩)
          none (some 14) (some 15) 22 = []
      ∧ crear_asiento_compra (some ⟨2, "2024-01-03", 100, "contado"⟩)
          (some 13) none none 22 = [])
    ∧ (dosAsientosBalanceados
        (crear_asiento_recibo (some ⟨3, "2024-01-04", 100, none⟩) (some 16) (some 17) 23) 23
      ∧ crear_asiento_recibo (some ⟨3, "2024-01-04", 100, none⟩) none (some 17) 23 = []
      ∧ crear_asiento_recibo (some ⟨3, "2024-01-04", 100, none⟩) (some 16) none 23 = [])
    ∧ (dosAsientosBalanceados
        (crear_asiento_egreso (some ⟨4, "2024-01-05", 100, none⟩) (some 18) (some 19) 24) 24
      ∧ crear_asiento_egreso (some ⟨4, "2024-01-05", 100, none⟩) none (some 19) 24 = []
      ∧ crear_asiento_egreso (some ⟨4, "2024-01-05", 100, none⟩) (some 18) none 24 = [])
    ∧ (dosAsientosBalanceados
        (crear_asiento_nota_credito (some ⟨5, "2024-01-06", 100⟩) (some 20) (some 11) 25) 25
      ∧ crear_asiento_nota_credito (some ⟨5, "2024-01-06", 100⟩) none (some 11) 25 = []
      ∧ crear_asiento_nota_credito (some ⟨5, "2024-01-06", 100⟩) (some 20) none 25 = [])) :=
  ⟨by norm_num,
    c2_asientos_balanceados ⟨1, "2024-01-02", 100⟩ ⟨2, "2024-01-03", 100, "contado"⟩
      ⟨3, "2024-01-04", 100, none⟩ ⟨4, "2024-01-05", 100, none⟩ ⟨5, "2024-01-06", 100⟩
      11 12 13 14 15 16 17 18 19 20 21 22 23 24 25
      (by norm_num) (by norm_num) (by norm_num) (by norm_num) (by norm_num)⟩

/-! ## FiscalFingerprintGenerator: `generar_cufe` and `generar_codigo_qr_data`
(src/facturacion_electronica_utils.py, lines 81-243).  SHA-384 is embedded in
full (FIPS 180-4), on byte lists with 64-bit words as naturals mod 2^64. -/

/-- Python's `f"{x:.2f}"` on an exact value: round to 2 fractional digits
(half to even) and render with a `.` separator and two fraction digits. -/
def fmt2 (x : ℚ) : String :=
  let n := pyRound (x * 100)
  let a := n.natAbs
  (if n < 0 then "-" else "") ++ toString (a / 100) ++ "." ++
    (if a % 100 < 10 then "0" else "") ++ toString (a % 100)

/-- UTF-8 encoding of one character. -/
def utf8Char (c : Char) : List ℕ :=
  let n := c.toNat
  if n < 128 then [n]
  else if n < 2048 then [192 + n / 64, 128 + n % 64]
  else if n < 65536 then [224 + n / 4096, 128 + n / 64 % 64, 128 + n % 64]
  else [240 + n / 262144, 128 + n / 4096 % 64, 128 + n / 64 % 64, 128 + n % 64]

/-- `s.encode('utf-8')` as a byte list. -/
def utf8Encode (s : String) : List ℕ := s.data.flatMap utf8Char

/-- Right rotation of a 64-bit word. -/
def rotr64 (n x : ℕ) : ℕ := x / 2 ^ n + x % 2 ^ n * 2 ^ (64 - n)

/-- Bitwise complement within 64 bits (valid for `x < 2^64`). -/
def compl64 (x : ℕ) : ℕ := 2 ^ 64 - 1 - x

def shaCh (x y z : ℕ) : ℕ := (x &&& y) ^^^ (compl64 x &&& z)

def shaMaj (x y z : ℕ) : ℕ := (x &&& y) ^^^ (x &&& z) ^^^ (y &&& z)

def shaS0 (x : ℕ) : ℕ := rotr64 28 x ^^^ rotr64 34 x ^^^ rotr64 39 x

def shaS1 (x : ℕ) : ℕ := rotr64 14 x ^^^ rotr64 18 x ^^^ rotr64 41 x

def shas0 (x : ℕ) : ℕ := rotr64 1 x ^^^ rotr64 8 x ^^^ x / 2 ^ 7

def shas1 (x : ℕ) : ℕ := rotr64 19 x ^^^ rotr64 61 x ^^^ x / 2 ^ 6

/-- The 80 SHA-512 round constants (fractional parts of the cube roots of the
first 80 primes, 64 bits each, here in decimal). -/
def shaK : List ℕ :=
  [4794697086780616226, 8158064640168781261, 13096744586834688815,
   16840607885511220156, 4131703408338449720, 6480981068601479193,
   10538285296894168987, 12329834152419229976, 15566598209576043074,
   1334009975649890238, 2608012711638119052, 6128411473006802146,
   8268148722764581231, 9286055187155687089, 11230858885718282805,
   13951009754708518548, 16472876342353939154, 17275323862435702243,
   1135362057144423861, 2597628984639134821, 3308224258029322869,
   5365058923640841347, 6679025012923562964, 8573033837759648693,
   10970295158949994411, 12119686244451234320, 12683024718118986047,
   13788192230050041572, 14330467153632333762, 15395433587784984357,
   489312712824947311, 1452737877330783856, 2861767655752347644,
   3322285676063803686, 5560940570517711597, 5996557281743188959,
   7280758554555802590, 8532644243296465576, 9350256976987008742,
   10552545826968843579, 11727347734174303076, 12113106623233404929,
   14000437183269869457, 14369950271660146224, 15101387698204529176,
   15463397548674623760, 17586052441742319658, 1182934255886127544,
   1847814050463011016, 2177327727835720531, 2830643537854262169,
   3796741975233480872, 4115178125766777443, 5681478168544905931,
   6601373596472566643, 7507060721942968483, 8399075790359081724,
   8693463985226723168, 9568029438360202098, 10144078919501101548,
   10430055236837252648, 11840083180663258601, 13761210420658862357,
   14299343276471374635, 14566680578165727644, 15097957966210449927,
   16922976911328602910, 17689382322260857208, 500013540394364858,
   748580250866718886, 1242879168328830382, 1977374033974150939,
   2944078676154940804, 3659926193048069267, 4368137639120453308,
   4836135668995329356, 5532061633213252278, 6448918945643986474,
   6902733635092675308, 7801388544844847127]

/-- The eight 64-bit hash state words. -/
structure ShaState where
  h0 : ℕ
  h1 : ℕ
  h2 : ℕ
  h3 : ℕ
  h4 : ℕ
  h5 : ℕ
  h6 : ℕ
  h7 : ℕ

/-- SHA-384 initial hash value (fractional parts of the square roots of the
ninth through sixteenth primes, in decimal). -/
def sha384Init : ShaState :=
  ⟨14680500436340154072, 7105036623409894663,
   10473403895298186519, 1526699215303891257,
   7436329637833083697, 10282925794625328401,
   15784041429090275239, 5167115440072839076⟩

/-- The 16-byte big-endian bit-length field of the SHA-512 family padding. -/
def lenBytes16 (n : ℕ) : List ℕ :=
  (List.range 16).map (fun i => n / 2 ^ (8 * (15 - i)) % 256)

/-- FIPS 180-4 padding: `0x80`, zeros to 112 mod 128, 16-byte bit length. -/
def padMessage (msg : List ℕ) : List ℕ :=
  msg ++ 128 :: (List.replicate ((128 - (msg.length + 17) % 128) % 128) 0
    ++ lenBytes16 (8 * msg.length))

/-- Group bytes into big-endian 64-bit words. -/
def toWords : List ℕ → List ℕ
  | b0 :: b1 :: b2 :: b3 :: b4 :: b5 :: b6 :: b7 :: rest =>
      (((((((b0 * 256 + b1) * 256 + b2) * 256 + b3) * 256 + b4) * 256 + b5) * 256 + b6) * 256
        + b7) :: toWords rest
  | _ => []

/-- Split the word stream into 16-word blocks. -/
def chunk16 : List ℕ → List (List ℕ)
  | [] => []
  | w :: ws => (w :: ws.take 15) :: chunk16 (ws.drop 15)
termination_by l => l.length
decreasing_by simp [List.length_drop]; omega

/-- Extend a 16-word block to the 80-word message schedule. -/
def shaSchedule (ws : List ℕ) : Array ℕ :=
  (List.range 64).foldl (fun arr _ =>
    let t := arr.size
    arr.push ((shas1 (arr.getD (t - 2) 0) + arr.getD (t - 7) 0 + shas0 (arr.getD (t - 15) 0)
      + arr.getD (t - 16) 0) % 2 ^ 64)) ws.toArray

/-- One SHA-512 compression of a 16-word block into the running state. -/
def shaCompress (s : ShaState) (ws : List ℕ) : ShaState :=
  let W := shaSchedule ws
  let step := fun (t : ℕ × ℕ × ℕ × ℕ × ℕ × ℕ × ℕ × ℕ) (i : ℕ) =>
    match t with
    | (a, b, c, d, e, f, g, h) =>
      let T1 := (h + shaS1 e + shaCh e f g + shaK.getD i 0 + W.getD i 0) % 2 ^ 64
      let T2 := (shaS0 a + shaMaj a b c) % 2 ^ 64
      ((T1 + T2) % 2 ^ 64, a, b, c, (d + T1) % 2 ^ 64, e, f, g)
  match (List.range 80).foldl step (s.h0, s.h1, s.h2, s.h3, s.h4, s.h5, s.h6, s.h7) with
  | (a, b, c, d, e, f, g, h) =>
      ⟨(s.h0 + a) % 2 ^ 64, (s.h1 + b) % 2 ^ 64, (s.h2 + c) % 2 ^ 64, (s.h3 + d) % 2 ^ 64,
       (s.h4 + e) % 2 ^ 64, (s.h5 + f) % 2 ^ 64, (s.h6 + g) % 2 ^ 64, (s.h7 + h) % 2 ^ 64⟩

/-- Big-endian bytes of one 64-bit word. -/
def wordBytes (x : ℕ) : List ℕ :=
  [x / 2 ^ 56 % 256, x / 2 ^ 48 % 256, x / 2 ^ 40 % 256, x / 2 ^ 32 % 256,
   x / 2 ^ 24 % 256, x / 2 ^ 16 % 256, x / 2 ^ 8 % 256, x % 256]

/-- The 48-byte SHA-384 digest of a byte list (first six final words). -/
def sha384Bytes (msg : List ℕ) : List ℕ :=
  let final := (chunk16 (toWords (padMessage msg))).foldl shaCompress sha384Init
  wordBytes final.h0 ++ wordBytes final.h1 ++ wordBytes final.h2 ++
    wordBytes final.h3 ++ wordBytes final.h4 ++ wordBytes final.h5

def hexDigitUpper (n : ℕ) : Char :=
  if n < 10 then Char.ofNat (48 + n) else Char.ofNat (55 + n)

def byteHex (b : ℕ) : List Char := [hexDigitUpper (b / 16), hexDigitUpper (b % 16)]

/-- `.hexdigest().upper()`: uppercase hexadecimal rendering of a byte list. -/
def hexUpper (bs : List ℕ) : String := String.mk (bs.flatMap byteHex)

/-- `generar_cufe`: concatenate the fields in the fixed DIAN order with no
separators, hash with SHA-384, hex-encode uppercase.  A `none`
`valor_total_con_impuestos` (the Python `None` default) is replaced by
`valor_total + val_imp_1 + val_imp_2 + val_imp_3`. -/
def generar_cufe (numero_factura fecha_emision hora_emision : String) (valor_total : ℚ)
    (cod_imp_1 : String) (val_imp_1 : ℚ) (cod_imp_2 : String) (val_imp_2 : ℚ)
    (cod_imp_3 : String) (val_imp_3 : ℚ) (valor_total_con_impuestos : Option ℚ)
    (nit_emisor tipo_doc_adquirente num_doc_adquirente clave_tecnica ambiente : String) :
    String :=
  let vti := valor_total_con_impuestos.getD (valor_total + val_imp_1 + val_imp_2 + val_imp_3)
  let cadena_cufe :=
    numero_factura ++ fecha_emision ++ hora_emision ++ fmt2 valor_total ++
    cod_imp_1 ++ fmt2 val_imp_1 ++ cod_imp_2 ++ fmt2 val_imp_2 ++
    cod_imp_3 ++ fmt2 val_imp_3 ++ fmt2 vti ++ nit_emisor ++
    tipo_doc_adquirente ++ num_doc_adquirente ++ clave_tecnica ++ ambiente
  hexUpper (sha384Bytes (utf8Encode cadena_cufe))

/-- `generar_codigo_qr_data`: the fixed-order `label: value` payload. -/
def generar_codigo_qr_data (cufe numero_factura fecha_emision nit_emisor nit_adquirente :
    String) (valor_total valor_iva valor_total_con_impuestos : ℚ)
    (url_validacion : Option String) : String :=
  let url := url_validacion.getD
    ("https://catalogo-vpfe.dian.gov.co/document/searchqr?documentkey=" ++ cufe)
  "NumFac: " ++ numero_factura ++ "\n" ++
  "FecFac: " ++ fecha_emision ++ "\n" ++
  "NitFac: " ++ nit_emisor ++ "\n" ++
  "DocAdq: " ++ nit_adquirente ++ "\n" ++
  "ValFac: " ++ fmt2 valor_total ++ "\n" ++
  "ValIva: " ++ fmt2 valor_iva ++ "\n" ++
  "ValOtroIm: 0.00\n" ++
  "ValTot: " ++ fmt2 valor_total_con_impuestos ++ "\n" ++
  "CUFE: " ++ cufe ++ "\n" ++
  "URL: " ++ url

theorem length_flatMap_byteHex (bs : List ℕ) :
    (bs.flatMap byteHex).length = 2 * bs.length := by
  induction bs with
  | nil => rfl
  | cons b rest ih => simp [byteHex, ih]; ring

theorem sha384Bytes_length (msg : List ℕ) : (sha384Bytes msg).length = 48 := by
  simp [sha384Bytes, wordBytes]

theorem hexUpper_length (bs : List ℕ) : (hexUpper bs).length = 2 * bs.length := by
  show (bs.flatMap byteHex).length = 2 * bs.length
  exact length_flatMap_byteHex bs

theorem sha384Bytes_lt_256 (msg : List ℕ) : ∀ b ∈ sha384Bytes msg, b < 256 := by
  intro b hb
  simp only [sha384Bytes, wordBytes, List.mem_append, List.mem_cons,
    List.not_mem_nil, or_false] at hb
  omega

theorem hexDigitUpper_mem (n : ℕ) (h : n < 16) :
    hexDigitUpper n ∈ "0123456789ABCDEF".data := by
  interval_cases n <;> decide

theorem hexUpper_all_hex (bs : List ℕ) (h : ∀ b ∈ bs, b < 256) :
    ∀ c ∈ (hexUpper bs).data, c ∈ "0123456789ABCDEF".data := by
  intro c hc
  have hc2 : c ∈ bs.flatMap byteHex := hc
  rw [List.mem_flatMap] at hc2
  obtain ⟨b, hb, hcb⟩ := hc2
  have hlt := h b hb
  simp only [byteHex, List.mem_cons, List.not_mem_nil, or_false] at hcb
  rcases hcb with rfl | rfl
  · exact hexDigitUpper_mem _ (by omega)
  · exact hexDigitUpper_mem _ (by omega)

/-- Claim C3: `generar_cufe` is the uppercase hex SHA-384 digest of the
separator-free concatenation, in the fixed order, of document number, date,
time, pre-tax value (2 decimals), the three (tax code, value) slots, the grand
total (defaulted to the sum when not supplied), issuer NIT, buyer document
type and number, technical key and environment flag; being a pure function it
is deterministic, and the digest always has 96 characters, all uppercase hex. -/
theorem c3_cufe_digest (nf fe he : String) (vt : ℚ) (ci1 : String) (v1 : ℚ)
    (ci2 : String) (v2 : ℚ) (ci3 : String) (v3 : ℚ) (vti : Option ℚ)
    (ne td nd ct am : String) :
    generar_cufe nf fe he vt ci1 v1 ci2 v2 ci3 v3 vti ne td nd ct am
      = hexUpper (sha384Bytes (utf8Encode (nf ++ fe ++ he ++ fmt2 vt ++ ci1 ++ fmt2 v1 ++
          ci2 ++ fmt2 v2 ++ ci3 ++ fmt2 v3 ++ fmt2 (vti.getD (vt + v1 + v2 + v3)) ++
          ne ++ td ++ nd ++ ct ++ am)))
    ∧ (generar_cufe nf fe he vt ci1 v1 ci2 v2 ci3 v3 vti ne td nd ct am).length = 96
    ∧ ((generar_cufe nf fe he vt ci1 v1 ci2 v2 ci3 v3 vti ne td nd ct am).data.all
        (fun ch => decide (ch ∈ "0123456789ABCDEF".data))) = true := by
  refine ⟨rfl, ?_, ?_⟩
  · show (hexUpper (sha384Bytes (utf8Encode _))).length = 96
    rw [hexUpper_length, sha384Bytes_length]
  · rw [List.all_eq_true]
    intro ch hch
    rw [decide_eq_true_eq]
    exact hexUpper_all_hex _ (sha384Bytes_lt_256 _) ch hch

/-! ## Call-level modelling of missing header fields (claim C9).
A Python call site that omits an argument either raises `TypeError` (for the
positionally required parameters) or silently uses the declared default.
`none` marks an omitted argument; a call is modelled as `none` when Python
would raise. -/

/-- The argument set of a call to `generar_cufe`; `none` means omitted. -/
structure CufeArgs where
  numero_factura : Option String
  fecha_emision : Option String
  hora_emision : Option String
  valor_total : Option ℚ
  cod_imp_1 : Option String
  val_imp_1 : Option ℚ
  cod_imp_2 : Option String
  val_imp_2 : Option ℚ
  cod_imp_3 : Option String
  val_imp_3 : Option ℚ
  valor_total_con_impuestos : Option ℚ
  nit_emisor : Option String
  tipo_doc_adquirente : Option String
  num_doc_adquirente : Option String
  clave_tecnica : Option String
  ambiente : Option String

/-- Calling `generar_cufe` with argument set `a`: the four parameters without
declared defaults raise `TypeError` when omitted; every other omitted
parameter is silently replaced by its declared default. -/
def generar_cufe_llamada (a : CufeArgs) : Option String :=
  match a.numero_factura, a.fecha_emision, a.hora_emision, a.valor_total with
  | some nf, some fe, some he, some vt =>
      some (generar_cufe nf fe he vt
        (a.cod_imp_1.getD "01") (a.val_imp_1.getD 0)
        (a.cod_imp_2.getD "04") (a.val_imp_2.getD 0)
        (a.cod_imp_3.getD "03") (a.val_imp_3.getD 0)
        a.valor_total_con_impuestos
        (a.nit_emisor.getD "") (a.tipo_doc_adquirente.getD "")
        (a.num_doc_adquirente.getD "") (a.clave_tecnica.getD "")
        (a.ambiente.getD "2"))
  | _, _, _, _ => none

/-- True when one of the four positionally required `generar_cufe` parameters
is omitted. -/
def cufeRequeridoFalta (a : CufeArgs) : Bool :=
  a.numero_factura.isNone || a.fecha_emision.isNone ||
    a.hora_emision.isNone || a.valor_total.isNone

/-- The argument set of a call to `generar_codigo_qr_data`. -/
structure QrArgs where
  cufe : Option String
  numero_factura : Option String
  fecha_emision : Option String
  nit_emisor : Option String
  nit_adquirente : Option String
  valor_total : Option ℚ
  valor_iva : Option ℚ
  valor_total_con_impuestos : Option ℚ
  url_validacion : Option String

/-- Calling `generar_codigo_qr_data` with argument set `q`: all eight data
parameters are positionally required; only the URL has a default. -/
def generar_codigo_qr_llamada (q : QrArgs) : Option String :=
  match q.cufe, q.numero_factura, q.fecha_emision, q.nit_emisor, q.nit_adquirente,
      q.valor_total, q.valor_iva, q.valor_total_con_impuestos with
  | some c, some nf, some fe, some ne, some na, some vt, some vi, some vti =>
      some (generar_codigo_qr_data c nf fe ne na vt vi vti q.url_validacion)
  | _, _, _, _, _, _, _, _ => none

/-- True when one of the eight data parameters of `generar_codigo_qr_data` is
omitted. -/
def qrRequeridoFalta (q : QrArgs) : Bool :=
  q.cufe.isNone || q.numero_factura.isNone || q.fecha_emision.isNone ||
    q.nit_emisor.isNone || q.nit_adquirente.isNone || q.valor_total.isNone ||
    q.valor_iva.isNone || q.valor_total_con_impuestos.isNone

/-- Claim C9 (amended): `generar_codigo_qr_data` fails exactly when one of its
eight data fields is missing, and `generar_cufe` fails exactly when the
document number, issue date, issue time or pre-tax value is missing; a missing
issuer identifier, buyer identity type, buyer identifier, technical key or
environment flag is silently defaulted and a digest is still produced. -/
theorem c9_campos_requeridos (a : CufeArgs) (q : QrArgs) :
    (generar_cufe_llamada a = none ↔ cufeRequeridoFalta a = true)
    ∧ (generar_codigo_qr_llamada q = none ↔ qrRequeridoFalta q = true) := by
  obtain ⟨f1, f2, f3, f4, f5, f6, f7, f8, f9, f10, f11, f12, f13, f14, f15, f16⟩ := a
  obtain ⟨g1, g2, g3, g4, g5, g6, g7, g8, g9⟩ := q
  constructor
  · cases f1 <;> cases f2 <;> cases f3 <;> cases f4 <;>
      simp [generar_cufe_llamada, cufeRequeridoFalta]
  · cases g1 <;> cases g2 <;> cases g3 <;> cases g4 <;> cases g5 <;> cases g6 <;>
      cases g7 <;> cases g8 <;>
      simp [generar_codigo_qr_llamada, qrRequeridoFalta]

/-- Claim C9, counterexample to the claim as stated: a call omitting the
issuer identifier (and the buyer identity, technical key and environment flag)
does not fail — it silently defaults the missing fields and returns a digest. -/
theorem c9_counterexample :
    (generar_cufe_llamada
      ⟨some "1", some "2024-01-15", some "10:30:00-05:00", some 100,
       none, none, none, none, none, none, none, none, none, none, none, none⟩).isSome
      = true := rfl
